import Mathlib

/-!
Shallow embedding of the organization-provisioning and verification
subsystem of the marshal-lms repository: the Prisma-backed data model, the
signup server action (createOrganizationWithAdmin), the verification API
route (POST /api/auth/verify-organization-signup), the better-auth
organization plugin endpoints (inviteMember, acceptInvitation, ...), the
custom verifyOrganizationSignup endpoint, and the session-context hook.
Persistence is modelled as explicit state passing over a record of lists;
timestamps are naturals counting milliseconds since the epoch.
-/

namespace MarshalLMS

/-- Organization-scoped role enum (Prisma enum OrganizationRole). -/
inductive OrganizationRole where
  | OWNER
  | ADMIN
  | MEMBER
deriving DecidableEq, Repr

/-- Organization status enum (Prisma enum OrganizationStatus). -/
inductive OrganizationStatus where
  | TRIAL
  | ACTIVE
  | SUSPENDED
  | CANCELLED
deriving DecidableEq, Repr

/-- Invitation status enum (Prisma enum InvitationStatus). -/
inductive InvitationStatus where
  | PENDING
  | ACCEPTED
  | REJECTED
  | EXPIRED
deriving DecidableEq, Repr

/-- Combined role label attached to the session user (lib/auth-types.ts). -/
inductive CombinedRole where
  | org_owner
  | org_admin
  | org_member
  | individual
  | admin
deriving DecidableEq, Repr

/-- User row: the fields read or written by the embedded handlers.
The role field is the system-level role string ("admin" for system admins). -/
structure User where
  id : String
  name : String
  email : String
  emailVerified : Bool
  role : Option String
  organizationId : Option String
  organizationRole : Option OrganizationRole
  joinedOrganizationAt : Option Nat
deriving DecidableEq, Repr

/-- Organization row: the fields written by the provisioning code. -/
structure Organization where
  id : String
  name : String
  slug : String
  description : Option String
  contactEmail : Option String
  contactPhone : Option String
  website : Option String
  maxSeats : Nat
  ownerId : String
  status : OrganizationStatus
  trialEndsAt : Nat
  billingEmail : Option String
  allowSelfSignup : Bool
  requireAdminApproval : Bool
deriving DecidableEq, Repr

/-- Verification row: identifier is the email, value is the code. -/
structure Verification where
  id : String
  identifier : String
  value : String
  expiresAt : Nat
deriving DecidableEq, Repr

/-- OrganizationInvitation row. -/
structure OrganizationInvitation where
  id : String
  organizationId : String
  email : String
  role : OrganizationRole
  message : Option String
  senderId : String
  courseIds : List String
  status : InvitationStatus
  token : String
  expiresAt : Nat
  acceptedAt : Option Nat
  rejectedAt : Option Nat
deriving DecidableEq, Repr

/-- OrganizationActivity row (append-only audit log). -/
structure OrganizationActivity where
  organizationId : String
  userId : String
  action : String
  entityType : String
  entityId : String
deriving DecidableEq, Repr

/-- Session row as created by the custom verification endpoint. -/
structure Session where
  id : String
  token : String
  userId : String
  expiresAt : Nat
deriving DecidableEq, Repr

/-- The relational store, modelled as lists of rows. -/
structure DB where
  users : List User
  organizations : List Organization
  verifications : List Verification
  invitations : List OrganizationInvitation
  activities : List OrganizationActivity
  sessions : List Session
deriving DecidableEq, Repr

/-- prisma.user.findUnique where email (email is a unique column). -/
def DB.userByEmail (db : DB) (email : String) : Option User :=
  db.users.find? fun u => decide (u.email = email)

/-- prisma.user.findUnique where id. -/
def DB.userById (db : DB) (id : String) : Option User :=
  db.users.find? fun u => decide (u.id = id)

/-- prisma.organization.findUnique where slug (slug is a unique column). -/
def DB.orgBySlug (db : DB) (slug : String) : Option Organization :=
  db.organizations.find? fun o => decide (o.slug = slug)

/-- prisma.organization.findUnique where id. -/
def DB.orgById (db : DB) (id : String) : Option Organization :=
  db.organizations.find? fun o => decide (o.id = id)

/-- prisma.verification.findFirst where identifier, value, expiresAt gt now. -/
def DB.findVerification (db : DB) (email code : String) (now : Nat) : Option Verification :=
  db.verifications.find? fun v =>
    decide (v.identifier = email ∧ v.value = code ∧ now < v.expiresAt)

/-- prisma.user.count where organizationId. -/
def DB.memberCount (db : DB) (oid : String) : Nat :=
  db.users.countP fun u => decide (u.organizationId = some oid)

/-- Splitting a character list at every occurrence of a separator
(structural counterpart of String.splitOn, over the character list). -/
def splitAtChar (sep : Char) : List Char → List (List Char)
  | [] => [[]]
  | c :: cs =>
    let r := splitAtChar sep cs
    if c = sep then [] :: r
    else
      match r with
      | h :: t => (c :: h) :: t
      | [] => [[c]]

/-- Substring membership over character lists (structural counterpart of the
JavaScript String includes). -/
def hasSubstring (needle : List Char) : List Char → Bool
  | [] => needle.isEmpty
  | c :: cs => needle.isPrefixOf (c :: cs) || hasSubstring needle cs

/-- Modelled from the spec: zod .email() is validator-library code outside the
repository; modelled as one @ separating a nonempty local part from a domain
that contains a dot.  Claims only use validity as a hypothesis. -/
def isEmail (s : String) : Bool :=
  match splitAtChar '@' s.toList with
  | [lp, dom] => (!lp.isEmpty) && (!dom.isEmpty) && dom.contains '.'
  | _ => false

/-- Response shape of the verification API route (status plus JSON fields). -/
structure VerifyResponse where
  status : Nat
  error : Option String
  success : Bool
  message : Option String
  redirectTo : Option String
deriving DecidableEq, Repr

/-- Request body of the verification API route. -/
structure VerifyRequestBody where
  email : String
  code : String
deriving DecidableEq, Repr

/-- Result of one verification route call: the response and the new store. -/
structure VerifyOutcome where
  resp : VerifyResponse
  db : DB
deriving DecidableEq, Repr

/-- The POST /api/auth/verify-organization-signup route handler: validates the
body against verificationSchema (email plus a 6-character code), looks up a
non-expired Verification row matching identifier and value, 404s when the
user is missing, then flips emailVerified and deletes the used row.  The
redirect query-string encoding of the email (encodeURIComponent) is elided. -/
def verifyPOST (now : Nat) (db : DB) (body : VerifyRequestBody) : VerifyOutcome :=
  if isEmail body.email && (body.code.length == 6) then
    match db.findVerification body.email body.code now with
    | none => ⟨⟨400, some "Invalid or expired verification code", false, none, none⟩, db⟩
    | some verification =>
      match db.userByEmail body.email with
      | none => ⟨⟨404, some "User not found", false, none, none⟩, db⟩
      | some user =>
        let db1 : DB :=
          { db with users := db.users.map (fun u =>
              if u.id = user.id then { u with emailVerified := true } else u) }
        let db2 : DB :=
          { db1 with verifications := db1.verifications.filter (fun v =>
              decide (¬ v.id = verification.id)) }
        ⟨⟨200, none, true, some "Email verified successfully",
          some ("/login?email=" ++ body.email ++ "&verified=true")⟩, db2⟩
  else
    ⟨⟨400, some "Invalid input data", false, none, none⟩, db⟩

/-- Signup payload (lib/zodSchemas.ts organizationSignupSchema), after the
numeric coercion of maxSeats. -/
structure OrganizationSignupValues where
  organizationName : String
  organizationSlug : String
  organizationDescription : Option String
  adminName : String
  adminEmail : String
  contactEmail : Option String
  contactPhone : Option String
  website : Option String
  maxSeats : Nat
  acceptTerms : Bool
deriving DecidableEq, Repr

/-- Character class of the slug regex [a-z0-9-]. -/
def isSlugChar (c : Char) : Bool :=
  (('a' ≤ c && c ≤ 'z') || c.isDigit || c == '-')

/-- The slug regex from the schema: one or more characters of [a-z0-9-]. -/
def isSlug (s : String) : Bool :=
  (!s.isEmpty) && s.toList.all isSlugChar

/-- The phone regex from the schema: an optional plus, a leading digit 1-9,
then 1 to 14 further digits. -/
def isPhone (s : String) : Bool :=
  let t := match s.toList with
    | '+' :: rest => rest
    | cs => cs
  match t with
  | c :: rest =>
    ('1' ≤ c && c ≤ '9') && rest.all Char.isDigit
      && decide (1 ≤ rest.length) && decide (rest.length ≤ 14)
  | [] => false

/-- Modelled from the spec: zod .url() is validator-library code outside the
repository; modelled as an http or https scheme prefix. -/
def isUrl (s : String) : Bool :=
  "http://".toList.isPrefixOf s.toList || "https://".toList.isPrefixOf s.toList

/-- organizationSignupSchema.safeParse succeeding, as a boolean predicate
(lib/zodSchemas.ts): field lengths, slug and phone character shapes, email
and url validity, the 1..1000 seat bounds, and the terms flag. -/
def organizationSignupValid (v : OrganizationSignupValues) : Bool :=
  decide (2 ≤ v.organizationName.length) && decide (v.organizationName.length ≤ 100)
    && decide (2 ≤ v.organizationSlug.length) && decide (v.organizationSlug.length ≤ 50)
    && isSlug v.organizationSlug
    && decide ((v.organizationDescription.getD "").length ≤ 500)
    && decide (2 ≤ v.adminName.length) && decide (v.adminName.length ≤ 100)
    && isEmail v.adminEmail
    && v.contactEmail.all isEmail
    && v.contactPhone.all (fun p => p == "" || isPhone p)
    && v.website.all (fun w => w == "" || isUrl w)
    && decide (1 ≤ v.maxSeats) && decide (v.maxSeats ≤ 1000)
    && v.acceptTerms

/-- Modelled from the spec: the arcjet fixedWindow rule is collaborator code
outside the repository; modelled as a fixed-window counter keyed by the
originated address, with the configuration taken from the source
(window "10m", max 3): the request is denied when 3 or more attempts from
the same address already fall inside the current 10-minute window. -/
def fixedWindowDenied (attempts : List (String × Nat)) (ip : String) (now : Nat) : Bool :=
  decide (3 ≤ (attempts.filter fun a =>
    a.1 == ip && (a.2 / 600000 == now / 600000)).length)

/-- Ambient inputs of one createOrganizationWithAdmin call: the clock, the
originating address and its prior attempt log, the generated uuids, and the
random 6-digit draw Math.floor of 100000 + Math.random() * 900000. -/
structure SignupCtx where
  now : Nat
  ip : String
  attempts : List (String × Nat)
  userId : String
  verificationId : String
  verificationCode : Nat
  orgId : String
deriving DecidableEq, Repr

/-- ApiResponse from lib/types: a status tag and a user-facing message. -/
structure ApiResponse where
  status : String
  message : String
deriving DecidableEq, Repr

/-- Result of one signup action call: the response, the new store, and how
many emails were dispatched. -/
structure SignupOutcome where
  response : ApiResponse
  db : DB
  emailsSent : Nat
deriving DecidableEq, Repr

/-- The JavaScript a-or-else-b on an optional string, where the empty string
is falsy (used for contactEmail or adminEmail). -/
def jsStringOr (o : Option String) (d : String) : String :=
  match o with
  | some s => if s = "" then d else s
  | none => d

/-- The createOrganizationWithAdmin server action (LoginForm.tsx source):
rate-limit gate, schema validation, slug and email uniqueness checks, then a
transaction creating the Organization (TRIAL, 14-day trial), the admin User
(system role admin, organization role OWNER, unverified), the Verification
row (10-minute expiry) and one activity row, followed by one email send.
The validation-failure message is collapsed to a single generic string in
place of the first zod issue text. -/
def createOrganizationWithAdmin (ctx : SignupCtx) (db : DB)
    (values : OrganizationSignupValues) : SignupOutcome :=
  if fixedWindowDenied ctx.attempts ctx.ip ctx.now then
    ⟨⟨"error", "Too many signup attempts. Please try again later."⟩, db, 0⟩
  else if !(organizationSignupValid values) then
    ⟨⟨"error", "Invalid form data"⟩, db, 0⟩
  else if (db.orgBySlug values.organizationSlug).isSome then
    ⟨⟨"error", "Organization slug is already taken. Please choose another."⟩, db, 0⟩
  else if (db.userByEmail values.adminEmail).isSome then
    ⟨⟨"error", "An account with this email already exists. Please sign in instead."⟩, db, 0⟩
  else
    let organization : Organization :=
      { id := ctx.orgId
        name := values.organizationName
        slug := values.organizationSlug
        description := values.organizationDescription
        contactEmail := some (jsStringOr values.contactEmail values.adminEmail)
        contactPhone := values.contactPhone
        website := values.website
        maxSeats := values.maxSeats
        ownerId := ctx.userId
        status := OrganizationStatus.TRIAL
        trialEndsAt := ctx.now + 14 * 24 * 60 * 60 * 1000
        billingEmail := some values.adminEmail
        allowSelfSignup := false
        requireAdminApproval := true }
    let user : User :=
      { id := ctx.userId
        name := values.adminName
        email := values.adminEmail
        emailVerified := false
        role := some "admin"
        organizationId := some organization.id
        organizationRole := some OrganizationRole.OWNER
        joinedOrganizationAt := some ctx.now }
    let verification : Verification :=
      { id := ctx.verificationId
        identifier := values.adminEmail
        value := toString ctx.verificationCode
        expiresAt := ctx.now + 10 * 60 * 1000 }
    let activity : OrganizationActivity :=
      { organizationId := organization.id
        userId := user.id
        action := "organization_created"
        entityType := "organization"
        entityId := organization.id }
    ⟨⟨"success", "Organization created successfully! Please check your email for verification."⟩,
      { db with
        organizations := db.organizations ++ [organization]
        users := db.users ++ [user]
        verifications := db.verifications ++ [verification]
        activities := db.activities ++ [activity] },
      1⟩

/-- Response shape of the better-auth plugin endpoints: the HTTP status and
the error message when one is returned (success payloads are read off the
resulting store). -/
structure EndpointResponse where
  status : Nat
  error : Option String
deriving DecidableEq, Repr

/-- Result of one plugin-endpoint call. -/
structure StepOutcome where
  resp : EndpointResponse
  db : DB
deriving DecidableEq, Repr

/-- Body of the organization/invite endpoint. -/
structure InviteBody where
  email : String
  role : OrganizationRole
  message : Option String
  courseIds : Option (List String)
deriving DecidableEq, Repr

/-- True when the invited email already belongs to a member of the caller
organization: existingMember?.organizationId === user.organizationId. -/
def DB.emailIsMemberOf (db : DB) (oid email : String) : Bool :=
  match db.userByEmail email with
  | some m => decide (m.organizationId = some oid)
  | none => false

/-- True when a PENDING invitation for that organization-email pair exists
(findUnique on the compound key, then a status check). -/
def DB.pendingInvitationFor (db : DB) (oid email : String) : Bool :=
  match db.invitations.find? (fun i => decide (i.organizationId = oid ∧ i.email = email)) with
  | some inv => decide (inv.status = InvitationStatus.PENDING)
  | none => false

/-- The organization/invite endpoint (inviteMember): session gate, membership
and role gates, seat-capacity check, already-a-member check, pending
invitation check, then creation of a PENDING invitation with a 7-day expiry
and one activity row.  The generated invitation id and token arrive as
inputs. -/
def inviteMember (now : Nat) (invitationId token : String) (db : DB)
    (sessionUserId : Option String) (body : InviteBody) : StepOutcome :=
  match sessionUserId with
  | none => ⟨⟨401, some "Unauthorized"⟩, db⟩
  | some userId =>
    match db.userById userId with
    | none => ⟨⟨400, some "User is not part of an organization"⟩, db⟩
    | some user =>
      match user.organizationId with
      | none => ⟨⟨400, some "User is not part of an organization"⟩, db⟩
      | some oid =>
        match db.orgById oid with
        | none => ⟨⟨400, some "User is not part of an organization"⟩, db⟩
        | some organization =>
          if ¬ (user.organizationRole = some OrganizationRole.OWNER
              ∨ user.organizationRole = some OrganizationRole.ADMIN) then
            ⟨⟨403, some "Insufficient permissions"⟩, db⟩
          else if organization.maxSeats ≤ db.memberCount oid then
            ⟨⟨400, some "Organization has reached maximum seat limit"⟩, db⟩
          else if db.emailIsMemberOf oid body.email then
            ⟨⟨400, some "User is already a member of this organization"⟩, db⟩
          else if db.pendingInvitationFor oid body.email then
            ⟨⟨400, some "Invitation already sent to this email"⟩, db⟩
          else
            let invitation : OrganizationInvitation :=
              { id := invitationId
                organizationId := oid
                email := body.email
                role := body.role
                message := body.message
                senderId := userId
                courseIds := body.courseIds.getD []
                status := InvitationStatus.PENDING
                token := token
                expiresAt := now + 7 * 24 * 60 * 60 * 1000
                acceptedAt := none
                rejectedAt := none }
            let activity : OrganizationActivity :=
              { organizationId := oid
                userId := userId
                action := "member_invited"
                entityType := "invitation"
                entityId := invitationId }
            ⟨⟨200, none⟩,
              { db with
                invitations := db.invitations ++ [invitation]
                activities := db.activities ++ [activity] }⟩

/-- The organization/accept-invitation endpoint (acceptInvitation): token
lookup, PENDING and expiry gates (lazily marking EXPIRED when read past the
expiry), email match and no-current-organization gates, then joining the
caller to the organization with the invitation role and marking the
invitation ACCEPTED. -/
def acceptInvitation (now : Nat) (db : DB) (sessionUserId : Option String)
    (token : String) : StepOutcome :=
  match sessionUserId with
  | none => ⟨⟨401, some "Unauthorized"⟩, db⟩
  | some userId =>
    match db.invitations.find? (fun i => decide (i.token = token)) with
    | none => ⟨⟨404, some "Invalid invitation"⟩, db⟩
    | some invitation =>
      if ¬ invitation.status = InvitationStatus.PENDING then
        ⟨⟨400, some "Invitation is no longer valid"⟩, db⟩
      else if invitation.expiresAt < now then
        ⟨⟨400, some "Invitation has expired"⟩,
          { db with invitations := db.invitations.map (fun i =>
              if i.id = invitation.id then { i with status := InvitationStatus.EXPIRED } else i) }⟩
      else
        match db.userById userId with
        | none => ⟨⟨400, some "Invitation email does not match user email"⟩, db⟩
        | some user =>
          if ¬ user.email = invitation.email then
            ⟨⟨400, some "Invitation email does not match user email"⟩, db⟩
          else if user.organizationId.isSome then
            ⟨⟨400, some "User is already part of an organization"⟩, db⟩
          else
            let db1 : DB :=
              { db with users := db.users.map (fun u =>
                  if u.id = userId then
                    { u with
                      organizationId := some invitation.organizationId
                      organizationRole := some invitation.role
                      joinedOrganizationAt := some now }
                  else u) }
            let db2 : DB :=
              { db1 with invitations := db1.invitations.map (fun i =>
                  if i.id = invitation.id then
                    { i with status := InvitationStatus.ACCEPTED, acceptedAt := some now }
                  else i) }
            ⟨⟨200, none⟩,
              { db2 with activities := db2.activities ++
                  [{ organizationId := invitation.organizationId
                     userId := userId
                     action := "member_joined"
                     entityType := "user"
                     entityId := userId }] }⟩

/-- The combined-role derivation of the organization plugin after-hook: a
system role admin wins outright; otherwise the loaded organization record
gates the mapping of the organization role, and absence of both yields the
individual label. -/
def composeCombinedRole (u : User) (org : Option Organization) : CombinedRole :=
  match org with
  | some _ =>
    if u.role = some "admin" then CombinedRole.admin
    else
      match u.organizationRole with
      | some OrganizationRole.OWNER => CombinedRole.org_owner
      | some OrganizationRole.ADMIN => CombinedRole.org_admin
      | some OrganizationRole.MEMBER => CombinedRole.org_member
      | none => CombinedRole.individual
  | none =>
    if u.role = some "admin" then CombinedRole.admin else CombinedRole.individual

/-- The organization record the after-hook loads for a user (the include of
organization on the user lookup). -/
def DB.userOrganization (db : DB) (u : User) : Option Organization :=
  u.organizationId.bind fun oid => db.orgById oid

/-- Combined role as the after-hook attaches it to the session user. -/
def sessionCombinedRole (db : DB) (u : User) : CombinedRole :=
  composeCombinedRole u (db.userOrganization u)

/-- The Set-Cookie header value built by the verifyOrganizationSignup
endpoint (30-day Max-Age, Secure only in production). -/
def sessionCookieValue (sessionToken : String) (production : Bool) : String :=
  "better-auth.session_token=" ++ sessionToken ++ "; HttpOnly; Path=/; SameSite=Lax; "
    ++ (if production then "Secure;" else "") ++ " Max-Age=2592000"

/-- Result of one verifyOrganizationSignup endpoint call: status, error,
success flag, the Set-Cookie header when one is set, and the new store. -/
structure OrgVerifyOutcome where
  status : Nat
  error : Option String
  success : Bool
  setCookie : Option String
  db : DB
deriving DecidableEq, Repr

/-- The custom verifyOrganizationSignup endpoint of the organization
verification plugin: same lookup, verification flip and single-use deletion
as the API route, then additionally a Session row (30-day expiry) and a
session cookie minted directly.  The generated session id and token arrive
as inputs; the body is assumed to have passed the framework zod gate. -/
def verifyOrganizationSignup (now : Nat) (sessionId sessionToken : String)
    (production : Bool) (db : DB) (body : VerifyRequestBody) : OrgVerifyOutcome :=
  match db.findVerification body.email body.code now with
  | none => ⟨400, some "Invalid or expired verification code", false, none, db⟩
  | some verification =>
    match db.userByEmail body.email with
    | none => ⟨404, some "User not found", false, none, db⟩
    | some user =>
      let db1 : DB :=
        { db with users := db.users.map (fun u =>
            if u.id = user.id then { u with emailVerified := true } else u) }
      let db2 : DB :=
        { db1 with verifications := db1.verifications.filter (fun v =>
            decide (¬ v.id = verification.id)) }
      let db3 : DB :=
        { db2 with sessions := db2.sessions ++
            [{ id := sessionId
               token := sessionToken
               userId := user.id
               expiresAt := now + 60 * 60 * 24 * 30 * 1000 }] }
      ⟨200, none, true, some (sessionCookieValue sessionToken production), db3⟩

/-- One membership operation: an invite call or an accept call, with its
ambient inputs. -/
inductive OrgStep where
  | invite (now : Nat) (invitationId token : String)
      (sessionUserId : Option String) (body : InviteBody)
  | accept (now : Nat) (sessionUserId : Option String) (token : String)
deriving DecidableEq, Repr

/-- The store after one membership operation. -/
def applyStep (db : DB) : OrgStep → DB
  | OrgStep.invite now iid tok uid body => (inviteMember now iid tok db uid body).db
  | OrgStep.accept now uid tok => (acceptInvitation now db uid tok).db

/-- Number of users holding the OWNER role inside one organization. -/
def ownerCount (db : DB) (oid : String) : Nat :=
  db.users.countP fun u =>
    decide (u.organizationId = some oid ∧ u.organizationRole = some OrganizationRole.OWNER)

/-- The at-most-one-OWNER invariant of the spec. -/
def AtMostOneOwner (db : DB) : Prop :=
  ∀ oid : String, ownerCount db oid ≤ 1

/-- No stored invitation carries the OWNER role. -/
def NoOwnerInvitations (db : DB) : Prop :=
  ∀ i ∈ db.invitations, i.role ≠ OrganizationRole.OWNER

/-- A step whose payload never asks for the OWNER role. -/
def StepNoOwnerRole : OrgStep → Prop
  | OrgStep.invite _ _ _ _ body => body.role ≠ OrganizationRole.OWNER
  | OrgStep.accept _ _ _ => True

section FallibleModel

/-!
Exception model for the error-handling policy: every awaited collaborator
call is a value of Except String, an uncaught throw surfacing as error.
Handlers that the source wraps in try/catch are total functions into plain
responses; the organization-plugin endpoints, whose source has no
try/catch, keep the Except type and so propagate a throw.
-/

/-- One arcjet protect decision. -/
inductive RateDecision where
  | allowed
  | rateLimited
  | blocked
deriving DecidableEq, Repr

/-- The fallible collaborators consumed by the handlers: each call may throw.
The result values are supplied by the record so a concrete instance can
script any store behaviour, including a throwing one. -/
structure FallibleDb where
  rateProtect : Except String RateDecision
  orgFindBySlug : String → Except String (Option Organization)
  userFindByEmail : String → Except String (Option User)
  verificationFind : String → String → Except String (Option Verification)
  userUpdate : Except String Unit
  verificationDelete : Except String Unit
  signupTransaction : Except String Unit
  emailSend : Except String Unit
  orgCreate : Except String Unit
  activityCreate : Except String Unit
  sessionCreate : Except String Unit

/-- Body of the organization/create endpoint (the slug is the only field the
control flow reads). -/
structure CreateOrgBody where
  name : String
  slug : String
  description : Option String
  contactEmail : Option String
  maxSeats : Nat
deriving DecidableEq, Repr

/-- The organization/create endpoint over fallible collaborators.  The source
handler has no try/catch, so the result keeps the Except type: a throwing
store call propagates to the caller. -/
def createOrganizationEndpointE (fdb : FallibleDb) (sessionUserId : Option String)
    (body : CreateOrgBody) : Except String EndpointResponse :=
  match sessionUserId with
  | none => Except.ok ⟨401, some "Unauthorized"⟩
  | some _ => do
    let existingOrg ← fdb.orgFindBySlug body.slug
    if existingOrg.isSome then
      return ⟨400, some "Organization slug already exists"⟩
    fdb.orgCreate
    fdb.userUpdate
    fdb.activityCreate
    return ⟨200, none⟩

/-- The body of the try block of the verification API route, over fallible
collaborators. -/
def verifyPOSTInnerE (fdb : FallibleDb) (body : VerifyRequestBody) :
    Except String VerifyResponse := do
  if isEmail body.email && (body.code.length == 6) then
    let verification ← fdb.verificationFind body.email body.code
    match verification with
    | none => return ⟨400, some "Invalid or expired verification code", false, none, none⟩
    | some _ =>
      let user ← fdb.userFindByEmail body.email
      match user with
      | none => return ⟨404, some "User not found", false, none, none⟩
      | some _ =>
        fdb.userUpdate
        fdb.verificationDelete
        return ⟨200, none, true, some "Email verified successfully",
          some ("/login?email=" ++ body.email ++ "&verified=true")⟩
  else
    return ⟨400, some "Invalid input data", false, none, none⟩

/-- The verification API route with its catch block: any throw is converted
to the generic 500 failure response. -/
def verifyPOSTRoute (fdb : FallibleDb) (body : VerifyRequestBody) : VerifyResponse :=
  match verifyPOSTInnerE fdb body with
  | Except.ok r => r
  | Except.error _ => ⟨500, some "Failed to verify email", false, some "Please try again later", none⟩

/-- The body of the try block of the signup server action, over fallible
collaborators. -/
def signupInnerE (fdb : FallibleDb) (values : OrganizationSignupValues) :
    Except String ApiResponse := do
  let decision ← fdb.rateProtect
  match decision with
  | RateDecision.rateLimited =>
    return ⟨"error", "Too many signup attempts. Please try again later."⟩
  | RateDecision.blocked =>
    return ⟨"error", "Request blocked. Please contact support if this persists."⟩
  | RateDecision.allowed =>
    if !(organizationSignupValid values) then
      return ⟨"error", "Invalid form data"⟩
    else do
      let existingOrg ← fdb.orgFindBySlug values.organizationSlug
      if existingOrg.isSome then
        return ⟨"error", "Organization slug is already taken. Please choose another."⟩
      let existingUser ← fdb.userFindByEmail values.adminEmail
      if existingUser.isSome then
        return ⟨"error", "An account with this email already exists. Please sign in instead."⟩
      fdb.signupTransaction
      fdb.emailSend
      return ⟨"success", "Organization created successfully! Please check your email for verification."⟩

/-- The catch block of the signup server action: a unique-constraint message
gets the conflict wording, anything else the generic failure wording. -/
def signupCatch (e : String) : ApiResponse :=
  if hasSubstring "Unique constraint".toList e.toList then
    ⟨"error", "Organization or email already exists. Please try different values."⟩
  else
    ⟨"error", "Failed to create organization. Please try again later."⟩

/-- The signup server action with its catch block. -/
def signupRoute (fdb : FallibleDb) (values : OrganizationSignupValues) : ApiResponse :=
  match signupInnerE fdb values with
  | Except.ok r => r
  | Except.error e => signupCatch e

/-- The body of the try block of the verifyOrganizationSignup endpoint, over
fallible collaborators (the response is reduced to status, error and
success). -/
def orgVerifyInnerE (fdb : FallibleDb) (body : VerifyRequestBody) :
    Except String EndpointResponse := do
  let verification ← fdb.verificationFind body.email body.code
  match verification with
  | none => return ⟨400, some "Invalid or expired verification code"⟩
  | some _ =>
    let user ← fdb.userFindByEmail body.email
    match user with
    | none => return ⟨404, some "User not found"⟩
    | some _ =>
      fdb.userUpdate
      fdb.verificationDelete
      fdb.sessionCreate
      return ⟨200, none⟩

/-- The verifyOrganizationSignup endpoint with its catch block. -/
def orgVerifyRoute (fdb : FallibleDb) (body : VerifyRequestBody) : EndpointResponse :=
  match orgVerifyInnerE fdb body with
  | Except.ok r => r
  | Except.error _ => ⟨500, some "Failed to verify email"⟩

/-- A store whose every collaborator call throws. -/
def throwingDb : FallibleDb where
  rateProtect := Except.error "db failure"
  orgFindBySlug := fun _ => Except.error "db failure"
  userFindByEmail := fun _ => Except.error "db failure"
  verificationFind := fun _ _ => Except.error "db failure"
  userUpdate := Except.error "db failure"
  verificationDelete := Except.error "db failure"
  signupTransaction := Except.error "db failure"
  emailSend := Except.error "db failure"
  orgCreate := Except.error "db failure"
  activityCreate := Except.error "db failure"
  sessionCreate := Except.error "db failure"

end FallibleModel

/-! Theorems. -/

/-- C1: for every payload that passes organizationSignupSchema validation,
with the slug and admin email unused and the rate window open,
createOrganizationWithAdmin returns success and creates exactly one
Organization row (TRIAL, trial ending 14 days later), one User row (OWNER,
system role admin, unverified), one Verification row (a 6-digit code, the
decimal form of a number in 100000..999999, with 10-minute expiry), one
activity row, and triggers exactly one email send. -/
theorem createOrganizationWithAdmin_provisions_once
    (ctx : SignupCtx) (db : DB) (values : OrganizationSignupValues)
    (hrate : fixedWindowDenied ctx.attempts ctx.ip ctx.now = false)
    (hvalid : organizationSignupValid values = true)
    (hslug : db.orgBySlug values.organizationSlug = none)
    (hemail : db.userByEmail values.adminEmail = none)
    (hcode : 100000 ≤ ctx.verificationCode ∧ ctx.verificationCode ≤ 999999) :
    (createOrganizationWithAdmin ctx db values).response.status = "success" ∧
    (createOrganizationWithAdmin ctx db values).emailsSent = 1 ∧
    ∃ o u v a,
      (createOrganizationWithAdmin ctx db values).db =
        { db with
          organizations := db.organizations ++ [o]
          users := db.users ++ [u]
          verifications := db.verifications ++ [v]
          activities := db.activities ++ [a] } ∧
      o.status = OrganizationStatus.TRIAL ∧
      o.trialEndsAt = ctx.now + 14 * 24 * 60 * 60 * 1000 ∧
      u.email = values.adminEmail ∧
      u.organizationRole = some OrganizationRole.OWNER ∧
      u.emailVerified = false ∧
      v.identifier = values.adminEmail ∧
      (∃ n, 100000 ≤ n ∧ n ≤ 999999 ∧ v.value = toString n) ∧
      v.expiresAt = ctx.now + 10 * 60 * 1000 := by
  simp only [createOrganizationWithAdmin, hrate, hvalid, hslug, hemail,
    Bool.false_eq_true, if_false, Bool.not_true, Option.isSome_none]
  exact ⟨by trivial, by trivial, _, _, _, _, rfl, rfl, rfl, rfl, rfl, rfl, rfl,
    ⟨ctx.verificationCode, hcode.1, hcode.2, rfl⟩, rfl⟩

/-- Witness for C1 at a concrete payload over the empty store. -/
theorem createOrganizationWithAdmin_provisions_once_witness :
    (createOrganizationWithAdmin
      ⟨0, "203.0.113.7", [], "user-1", "ver-1", 123456, "org-1"⟩
      ⟨[], [], [], [], [], []⟩
      ⟨"Acme Corp", "acme-corp", none, "Alice Admin", "admin@acme.com",
        none, none, none, 5, true⟩).response.status = "success" :=
  (createOrganizationWithAdmin_provisions_once
    ⟨0, "203.0.113.7", [], "user-1", "ver-1", 123456, "org-1"⟩
    ⟨[], [], [], [], [], []⟩
    ⟨"Acme Corp", "acme-corp", none, "Alice Admin", "admin@acme.com",
      none, none, none, 5, true⟩
    (by decide) (by decide) rfl rfl (by decide)).1

/-- C8: when 3 prior attempts from the same originating address already fall
inside the current fixed 10-minute window, the next (4th) call is denied
with the rate-limit message and creates no rows and sends no email. -/
theorem createOrganizationWithAdmin_rate_limited
    (ctx : SignupCtx) (db : DB) (values : OrganizationSignupValues)
    (hprior : (ctx.attempts.filter fun a =>
        a.1 == ctx.ip && (a.2 / 600000 == ctx.now / 600000)).length = 3) :
    (createOrganizationWithAdmin ctx db values).response =
      ⟨"error", "Too many signup attempts. Please try again later."⟩ ∧
    (createOrganizationWithAdmin ctx db values).db = db ∧
    (createOrganizationWithAdmin ctx db values).emailsSent = 0 := by
  have hden : fixedWindowDenied ctx.attempts ctx.ip ctx.now = true := by
    simp [fixedWindowDenied, hprior]
  simp only [createOrganizationWithAdmin, hden, if_true]
  exact ⟨by trivial, by trivial, by trivial⟩

/-- Witness for C8: a 4th attempt from one address inside one window. -/
theorem createOrganizationWithAdmin_rate_limited_witness :
    (createOrganizationWithAdmin
      ⟨400000, "203.0.113.7",
        [("203.0.113.7", 100), ("203.0.113.7", 200000), ("203.0.113.7", 300000)],
        "user-1", "ver-1", 123456, "org-1"⟩
      ⟨[], [], [], [], [], []⟩
      ⟨"Acme Corp", "acme-corp", none, "Alice Admin", "admin@acme.com",
        none, none, none, 5, true⟩).response =
      ⟨"error", "Too many signup attempts. Please try again later."⟩ :=
  (createOrganizationWithAdmin_rate_limited
    ⟨400000, "203.0.113.7",
      [("203.0.113.7", 100), ("203.0.113.7", 200000), ("203.0.113.7", 300000)],
      "user-1", "ver-1", 123456, "org-1"⟩
    ⟨[], [], [], [], [], []⟩
    ⟨"Acme Corp", "acme-corp", none, "Alice Admin", "admin@acme.com",
      none, none, none, 5, true⟩
    (by decide)).1

/-- C6: the session context composer maps a system admin role to admin
regardless of the organization role, otherwise maps the organization role
OWNER, ADMIN, MEMBER to org_owner, org_admin, org_member, and the absence
of both to individual; the hypothesis ties a present organization role to a
loaded organization record, as in every reachable user row. -/
theorem combinedRole_derivation (u : User) (org : Option Organization)
    (hconsist : u.organizationRole.isSome → org.isSome) :
    (u.role = some "admin" → composeCombinedRole u org = CombinedRole.admin) ∧
    (u.role ≠ some "admin" →
      (u.organizationRole = some OrganizationRole.OWNER →
        composeCombinedRole u org = CombinedRole.org_owner) ∧
      (u.organizationRole = some OrganizationRole.ADMIN →
        composeCombinedRole u org = CombinedRole.org_admin) ∧
      (u.organizationRole = some OrganizationRole.MEMBER →
        composeCombinedRole u org = CombinedRole.org_member) ∧
      (u.organizationRole = none →
        composeCombinedRole u org = CombinedRole.individual)) := by
  cases org with
  | some o =>
    refine ⟨fun h => by simp [composeCombinedRole, h], fun h => ⟨?_, ?_, ?_, ?_⟩⟩ <;>
      intro hr <;> simp [composeCombinedRole, h, hr]
  | none =>
    refine ⟨fun h => by simp [composeCombinedRole, h], fun h => ⟨?_, ?_, ?_, ?_⟩⟩ <;>
      intro hr
    · exact absurd (hconsist (by simp [hr])) (by simp)
    · exact absurd (hconsist (by simp [hr])) (by simp)
    · exact absurd (hconsist (by simp [hr])) (by simp)
    · simp [composeCombinedRole, h]

/-- Witness for C6: an organization OWNER without the system admin role gets
org_owner. -/
theorem combinedRole_derivation_witness :
    composeCombinedRole
      ⟨"u1", "Alice", "alice@acme.com", true, none, some "org-1",
        some OrganizationRole.OWNER, some 0⟩
      (some ⟨"org-1", "Acme", "acme", none, none, none, none, 5, "u1",
        OrganizationStatus.TRIAL, 0, none, false, true⟩) = CombinedRole.org_owner :=
  ((combinedRole_derivation
    ⟨"u1", "Alice", "alice@acme.com", true, none, some "org-1",
      some OrganizationRole.OWNER, some 0⟩
    (some ⟨"org-1", "Acme", "acme", none, none, none, none, 5, "u1",
      OrganizationStatus.TRIAL, 0, none, false, true⟩)
    (by decide)).2 (by decide)).1 rfl

/-- Helper: a user whose system role is admin is labelled admin by the
composer, whatever organization record is loaded. -/
theorem composeCombinedRole_of_admin (u : User) (org : Option Organization)
    (h : u.role = some "admin") : composeCombinedRole u org = CombinedRole.admin := by
  cases org <;> simp [composeCombinedRole, h]

/-- C10: the admin user created by createOrganizationWithAdmin carries the
system role admin, so the session composition labels the organization owner
admin and never org_owner, whatever organization record is loaded. -/
theorem signup_owner_combinedRole_admin
    (ctx : SignupCtx) (db : DB) (values : OrganizationSignupValues)
    (hrate : fixedWindowDenied ctx.attempts ctx.ip ctx.now = false)
    (hvalid : organizationSignupValid values = true)
    (hslug : db.orgBySlug values.organizationSlug = none)
    (hemail : db.userByEmail values.adminEmail = none) :
    ∃ u, (createOrganizationWithAdmin ctx db values).db.users = db.users ++ [u] ∧
      u.role = some "admin" ∧
      (∀ org : Option Organization, composeCombinedRole u org = CombinedRole.admin) ∧
      sessionCombinedRole (createOrganizationWithAdmin ctx db values).db u =
        CombinedRole.admin ∧
      sessionCombinedRole (createOrganizationWithAdmin ctx db values).db u ≠
        CombinedRole.org_owner := by
  simp only [createOrganizationWithAdmin, hrate, hvalid, hslug, hemail,
    Bool.false_eq_true, if_false, Bool.not_true, Option.isSome_none]
  refine ⟨_, rfl, rfl, fun org => composeCombinedRole_of_admin _ org rfl, ?_, ?_⟩
  · exact composeCombinedRole_of_admin _ _ rfl
  · show composeCombinedRole _ _ ≠ _
    rw [composeCombinedRole_of_admin _ _ rfl]
    decide

/-- Witness for C10 at the same concrete payload as the C1 witness. -/
theorem signup_owner_combinedRole_admin_witness :
    ∃ u, (createOrganizationWithAdmin
      ⟨0, "203.0.113.7", [], "user-1", "ver-1", 123456, "org-1"⟩
      ⟨[], [], [], [], [], []⟩
      ⟨"Acme Corp", "acme-corp", none, "Alice Admin", "admin@acme.com",
        none, none, none, 5, true⟩).db.users = [] ++ [u] ∧
      u.role = some "admin" ∧
      (∀ org : Option Organization, composeCombinedRole u org = CombinedRole.admin) ∧
      sessionCombinedRole (createOrganizationWithAdmin
        ⟨0, "203.0.113.7", [], "user-1", "ver-1", 123456, "org-1"⟩
        ⟨[], [], [], [], [], []⟩
        ⟨"Acme Corp", "acme-corp", none, "Alice Admin", "admin@acme.com",
          none, none, none, 5, true⟩).db u = CombinedRole.admin ∧
      sessionCombinedRole (createOrganizationWithAdmin
        ⟨0, "203.0.113.7", [], "user-1", "ver-1", 123456, "org-1"⟩
        ⟨[], [], [], [], [], []⟩
        ⟨"Acme Corp", "acme-corp", none, "Alice Admin", "admin@acme.com",
          none, none, none, 5, true⟩).db u ≠ CombinedRole.org_owner :=
  signup_owner_combinedRole_admin
    ⟨0, "203.0.113.7", [], "user-1", "ver-1", 123456, "org-1"⟩
    ⟨[], [], [], [], [], []⟩
    ⟨"Acme Corp", "acme-corp", none, "Alice Admin", "admin@acme.com",
      none, none, none, 5, true⟩
    (by decide) (by decide) rfl rfl

/-- Helper: a find? over a list whose unique satisfier is known returns it. -/
theorem find?_eq_of_unique {α : Type} (l : List α) (p : α → Bool) (a : α)
    (ha : a ∈ l) (hpa : p a = true) (huniq : ∀ b ∈ l, p b = true → b = a) :
    l.find? p = some a := by
  cases hf : l.find? p with
  | none => exact absurd hpa (List.find?_eq_none.mp hf a ha)
  | some b => rw [huniq b (List.mem_of_find?_eq_some hf) (List.find?_some hf)]

/-- C7: for a caller holding the OWNER or ADMIN role of a loaded
organization, inviteMember rejects (returning the store untouched) when the
member count has reached maxSeats, when the invited email already belongs to
a member, or when a PENDING invitation for that email exists; otherwise it
appends exactly one PENDING invitation expiring 7 days later. -/
theorem inviteMember_guards (now : Nat) (iid tok : String) (db : DB) (cid : String)
    (u : User) (oid : String) (org : Organization) (body : InviteBody)
    (hu : db.userById cid = some u)
    (hoid : u.organizationId = some oid)
    (horg : db.orgById oid = some org)
    (hrole : u.organizationRole = some OrganizationRole.OWNER
      ∨ u.organizationRole = some OrganizationRole.ADMIN) :
    (org.maxSeats ≤ db.memberCount oid →
      inviteMember now iid tok db (some cid) body =
        ⟨⟨400, some "Organization has reached maximum seat limit"⟩, db⟩) ∧
    (db.memberCount oid < org.maxSeats →
      db.emailIsMemberOf oid body.email = true →
      inviteMember now iid tok db (some cid) body =
        ⟨⟨400, some "User is already a member of this organization"⟩, db⟩) ∧
    (db.memberCount oid < org.maxSeats →
      db.emailIsMemberOf oid body.email = false →
      db.pendingInvitationFor oid body.email = true →
      inviteMember now iid tok db (some cid) body =
        ⟨⟨400, some "Invitation already sent to this email"⟩, db⟩) ∧
    (db.memberCount oid < org.maxSeats →
      db.emailIsMemberOf oid body.email = false →
      db.pendingInvitationFor oid body.email = false →
      (inviteMember now iid tok db (some cid) body).resp = ⟨200, none⟩ ∧
      ∃ inv, (inviteMember now iid tok db (some cid) body).db.invitations =
          db.invitations ++ [inv] ∧
        inv.email = body.email ∧ inv.role = body.role ∧
        inv.status = InvitationStatus.PENDING ∧
        inv.expiresAt = now + 7 * 24 * 60 * 60 * 1000) := by
  have hnrole : ¬ ¬ (u.organizationRole = some OrganizationRole.OWNER
      ∨ u.organizationRole = some OrganizationRole.ADMIN) := not_not_intro hrole
  refine ⟨?_, ?_, ?_, ?_⟩
  · intro hseat
    simp only [inviteMember, hu, hoid, horg, if_neg hnrole, if_pos hseat]
  · intro hseat hmem
    simp only [inviteMember, hu, hoid, horg, if_neg hnrole,
      if_neg (Nat.not_le.mpr hseat), hmem, if_true]
  · intro hseat hmem hpend
    simp only [inviteMember, hu, hoid, horg, if_neg hnrole,
      if_neg (Nat.not_le.mpr hseat), hmem, hpend, Bool.false_eq_true, if_false, if_true]
  · intro hseat hmem hpend
    simp only [inviteMember, hu, hoid, horg, if_neg hnrole,
      if_neg (Nat.not_le.mpr hseat), hmem, hpend, Bool.false_eq_true, if_false]
    exact ⟨by trivial, _, rfl, rfl, rfl, rfl, rfl⟩

/-- Witness for C7: a successful invite by the owner of a half-empty
organization. -/
theorem inviteMember_guards_witness :
    (inviteMember 0 "inv-1" "tok-1"
      ⟨[⟨"u1", "Alice", "alice@acme.com", true, none, some "org-1",
          some OrganizationRole.OWNER, some 0⟩],
        [⟨"org-1", "Acme", "acme", none, none, none, none, 5, "u1",
          OrganizationStatus.TRIAL, 0, none, false, true⟩],
        [], [], [], []⟩
      (some "u1")
      ⟨"bob@acme.com", OrganizationRole.MEMBER, none, none⟩).resp = ⟨200, none⟩ :=
  ((inviteMember_guards 0 "inv-1" "tok-1"
    ⟨[⟨"u1", "Alice", "alice@acme.com", true, none, some "org-1",
        some OrganizationRole.OWNER, some 0⟩],
      [⟨"org-1", "Acme", "acme", none, none, none, none, 5, "u1",
        OrganizationStatus.TRIAL, 0, none, false, true⟩],
      [], [], [], []⟩
    "u1"
    ⟨"u1", "Alice", "alice@acme.com", true, none, some "org-1",
      some OrganizationRole.OWNER, some 0⟩
    "org-1"
    ⟨"org-1", "Acme", "acme", none, none, none, none, 5, "u1",
      OrganizationStatus.TRIAL, 0, none, false, true⟩
    ⟨"bob@acme.com", OrganizationRole.MEMBER, none, none⟩
    (by decide) rfl (by decide) (Or.inl rfl)).2.2.2
    (by decide) (by decide) (by decide)).1

/-- C3: a Verification row for email e and code c with a future expiry, for
an existing user with that email (identifier and email each unique in the
store, as the unique columns guarantee), makes the exchange succeed, flip
the matching user to verified and delete the row; a second exchange with
the same email and code at any later time fails with the generic 400. -/
theorem verification_roundtrip_single_use
    (now now2 : Nat) (db : DB) (e c : String) (v : Verification) (u : User)
    (hv : v ∈ db.verifications) (hid : v.identifier = e) (hval : v.value = c)
    (hexp : now < v.expiresAt)
    (hvuniq : ∀ w ∈ db.verifications, w.identifier = e → w.value = c → w = v)
    (hu : u ∈ db.users) (hue : u.email = e)
    (huuniq : ∀ w ∈ db.users, w.email = e → w = u)
    (he : isEmail e = true) (hc : c.length = 6)
    (hnow : now ≤ now2) :
    (verifyPOST now db ⟨e, c⟩).resp.status = 200 ∧
    (verifyPOST now db ⟨e, c⟩).resp.success = true ∧
    (∀ w ∈ (verifyPOST now db ⟨e, c⟩).db.users, w.email = e → w.emailVerified = true) ∧
    v ∉ (verifyPOST now db ⟨e, c⟩).db.verifications ∧
    (verifyPOST now2 (verifyPOST now db ⟨e, c⟩).db ⟨e, c⟩).resp =
      ⟨400, some "Invalid or expired verification code", false, none, none⟩ := by
  have hcond : (isEmail e && (String.length c == 6)) = true := by
    rw [he, hc]; rfl
  have hfv : db.findVerification e c now = some v := by
    unfold DB.findVerification
    exact find?_eq_of_unique _ _ v hv (decide_eq_true ⟨hid, hval, hexp⟩)
      (fun b hb hpb =>
        hvuniq b hb (of_decide_eq_true hpb).1 (of_decide_eq_true hpb).2.1)
  have hfu : db.userByEmail e = some u := by
    unfold DB.userByEmail
    exact find?_eq_of_unique _ _ u hu (decide_eq_true hue)
      (fun b hb hpb => huuniq b hb (of_decide_eq_true hpb))
  have hrun : verifyPOST now db ⟨e, c⟩ =
      ⟨⟨200, none, true, some "Email verified successfully",
          some ("/login?email=" ++ e ++ "&verified=true")⟩,
        { db with
          users := db.users.map (fun x =>
            if x.id = u.id then { x with emailVerified := true } else x)
          verifications := db.verifications.filter (fun w =>
            decide (¬ w.id = v.id)) }⟩ := by
    simp only [verifyPOST, hcond, if_true, hfv, hfu]
  rw [hrun]
  refine ⟨rfl, rfl, ?_, ?_, ?_⟩
  · intro w hw hwe
    obtain ⟨x, hx, rfl⟩ := List.mem_map.mp hw
    by_cases hxid : x.id = u.id
    · simp [hxid]
    · have hxe : x.email = e := by
        by_cases hix : x.id = u.id
        · exact absurd hix hxid
        · simpa [hix] using hwe
      exact absurd (congrArg User.id (huuniq x hx hxe)) hxid
  · intro hmem
    have := (List.mem_filter.mp hmem).2
    exact (of_decide_eq_true this) rfl
  · have hnone :
        (DB.mk
          (db.users.map (fun x =>
            if x.id = u.id then { x with emailVerified := true } else x))
          db.organizations
          (db.verifications.filter (fun w => decide (¬ w.id = v.id)))
          db.invitations db.activities db.sessions).findVerification e c now2 = none := by
      unfold DB.findVerification
      rw [List.find?_eq_none]
      intro w hw hp
      obtain ⟨hmem2, hkeep⟩ := List.mem_filter.mp hw
      have hwz := of_decide_eq_true hp
      have hwv : w = v := hvuniq w hmem2 hwz.1 hwz.2.1
      subst hwv
      exact (of_decide_eq_true hkeep) rfl
    simp only [verifyPOST, hcond, if_true, hnone]

/-- Witness for C3 at a concrete one-user, one-row store. -/
theorem verification_roundtrip_single_use_witness :
    (verifyPOST 50
      ⟨[⟨"u1", "Bob", "bob@x.com", false, none, none, none, none⟩],
        [], [⟨"ver-1", "bob@x.com", "123456", 100⟩], [], [], []⟩
      ⟨"bob@x.com", "123456"⟩).resp.status = 200 :=
  (verification_roundtrip_single_use 50 60
    ⟨[⟨"u1", "Bob", "bob@x.com", false, none, none, none, none⟩],
      [], [⟨"ver-1", "bob@x.com", "123456", 100⟩], [], [], []⟩
    "bob@x.com" "123456"
    ⟨"ver-1", "bob@x.com", "123456", 100⟩
    ⟨"u1", "Bob", "bob@x.com", false, none, none, none, none⟩
    (by decide) rfl rfl (by decide) (by decide) (by decide) rfl (by decide)
    (by decide) (by decide) (by decide)).1

/-- C5: when every row matching the email and code is already expired, the
exchange fails with exactly the response returned when no row matches the
pair at all, and leaves the store untouched. -/
theorem verify_expired_same_as_wrong
    (now : Nat) (db1 db2 : DB) (e c : String)
    (he : isEmail e = true) (hc : c.length = 6)
    (hexists : ∃ v ∈ db1.verifications, v.identifier = e ∧ v.value = c ∧ v.expiresAt ≤ now)
    (hallexp : ∀ v ∈ db1.verifications, v.identifier = e → v.value = c → v.expiresAt ≤ now)
    (hnomatch : ∀ v ∈ db2.verifications, v.identifier = e → ¬ v.value = c) :
    (verifyPOST now db1 ⟨e, c⟩).resp = (verifyPOST now db2 ⟨e, c⟩).resp ∧
    (verifyPOST now db1 ⟨e, c⟩).resp =
      ⟨400, some "Invalid or expired verification code", false, none, none⟩ ∧
    (verifyPOST now db1 ⟨e, c⟩).db = db1 := by
  have hcond : (isEmail e && (String.length c == 6)) = true := by
    rw [he, hc]; rfl
  have h1 : db1.findVerification e c now = none := by
    unfold DB.findVerification
    rw [List.find?_eq_none]
    intro v hv hp
    have hz := of_decide_eq_true hp
    exact absurd hz.2.2 (Nat.not_lt.mpr (hallexp v hv hz.1 hz.2.1))
  have h2 : db2.findVerification e c now = none := by
    unfold DB.findVerification
    rw [List.find?_eq_none]
    intro v hv hp
    have hz := of_decide_eq_true hp
    exact absurd hz.2.1 (hnomatch v hv hz.1)
  simp only [verifyPOST, hcond, if_true, h1, h2]
  exact ⟨by trivial, by trivial, by trivial⟩

/-- Witness for C5: one expired row versus an empty store. -/
theorem verify_expired_same_as_wrong_witness :
    (verifyPOST 200
      ⟨[], [], [⟨"ver-1", "bob@x.com", "123456", 100⟩], [], [], []⟩
      ⟨"bob@x.com", "123456"⟩).resp =
    (verifyPOST 200 ⟨[], [], [], [], [], []⟩ ⟨"bob@x.com", "123456"⟩).resp :=
  (verify_expired_same_as_wrong 200
    ⟨[], [], [⟨"ver-1", "bob@x.com", "123456", 100⟩], [], [], []⟩
    ⟨[], [], [], [], [], []⟩
    "bob@x.com" "123456"
    (by decide) (by decide)
    ⟨⟨"ver-1", "bob@x.com", "123456", 100⟩, by decide, by decide, by decide, by decide⟩
    (by decide) (by decide)).1

/-- Helper: the minted cookie value always opens with the session cookie
name. -/
theorem sessionCookieValue_named (t : String) (production : Bool) :
    ∃ rest, sessionCookieValue t production = "better-auth.session_token=" ++ rest := by
  refine ⟨t ++ "; HttpOnly; Path=/; SameSite=Lax; "
    ++ (if production then "Secure;" else "") ++ " Max-Age=2592000", ?_⟩
  simp only [sessionCookieValue, String.append_assoc]

/-- C4: on a successful verifyOrganizationSignup exchange, the handler, on
top of flipping emailVerified and deleting the used Verification row, also
appends exactly one Session row for the loaded user (30-day expiry) and sets
a cookie whose value opens with better-auth.session_token=. -/
theorem verifyOrganizationSignup_mints_session
    (now : Nat) (sid stok : String) (production : Bool) (db : DB)
    (body : VerifyRequestBody) (v : Verification) (u : User)
    (hfv : db.findVerification body.email body.code now = some v)
    (hfu : db.userByEmail body.email = some u) :
    (verifyOrganizationSignup now sid stok production db body).success = true ∧
    (verifyOrganizationSignup now sid stok production db body).status = 200 ∧
    (verifyOrganizationSignup now sid stok production db body).db.sessions =
      db.sessions ++ [⟨sid, stok, u.id, now + 60 * 60 * 24 * 30 * 1000⟩] ∧
    (∃ rest, (verifyOrganizationSignup now sid stok production db body).setCookie =
      some ("better-auth.session_token=" ++ rest)) ∧
    (∀ w ∈ (verifyOrganizationSignup now sid stok production db body).db.users,
      w.id = u.id → w.emailVerified = true) ∧
    v ∉ (verifyOrganizationSignup now sid stok production db body).db.verifications := by
  simp only [verifyOrganizationSignup, hfv, hfu]
  refine ⟨by trivial, by trivial, by trivial, ?_, ?_, ?_⟩
  · obtain ⟨rest, hrest⟩ := sessionCookieValue_named stok production
    exact ⟨rest, by rw [hrest]⟩
  · intro w hw hwid
    obtain ⟨x, hx, rfl⟩ := List.mem_map.mp hw
    by_cases hxid : x.id = u.id
    · simp [hxid]
    · exact absurd (by simpa [hxid] using hwid) hxid
  · intro hmem
    have := (List.mem_filter.mp hmem).2
    exact (of_decide_eq_true this) rfl

/-- Witness for C4 at a concrete one-user, one-row store. -/
theorem verifyOrganizationSignup_mints_session_witness :
    (verifyOrganizationSignup 50 "sess-1" "tok-1" false
      ⟨[⟨"u1", "Bob", "bob@x.com", false, none, none, none, none⟩],
        [], [⟨"ver-1", "bob@x.com", "123456", 100⟩], [], [], []⟩
      ⟨"bob@x.com", "123456"⟩).success = true :=
  (verifyOrganizationSignup_mints_session 50 "sess-1" "tok-1" false
    ⟨[⟨"u1", "Bob", "bob@x.com", false, none, none, none, none⟩],
      [], [⟨"ver-1", "bob@x.com", "123456", 100⟩], [], [], []⟩
    ⟨"bob@x.com", "123456"⟩
    ⟨"ver-1", "bob@x.com", "123456", 100⟩
    ⟨"u1", "Bob", "bob@x.com", false, none, none, none, none⟩
    (by decide) (by decide)).1

/-- Counterexample to C2: starting from a store with one OWNER, an invite
whose payload carries the OWNER role followed by its acceptance yields two
users holding the OWNER role of the same organization. -/
theorem second_owner_reachable :
    ownerCount
      ⟨[⟨"u1", "Alice", "alice@acme.com", true, none, some "org-1",
          some OrganizationRole.OWNER, some 0⟩,
        ⟨"u2", "Bob", "bob@acme.com", true, none, none, none, none⟩],
        [⟨"org-1", "Acme", "acme", none, none, none, none, 5, "u1",
          OrganizationStatus.TRIAL, 0, none, false, true⟩],
        [], [], [], []⟩ "org-1" = 1 ∧
    ownerCount
      (applyStep
        (applyStep
          ⟨[⟨"u1", "Alice", "alice@acme.com", true, none, some "org-1",
              some OrganizationRole.OWNER, some 0⟩,
            ⟨"u2", "Bob", "bob@acme.com", true, none, none, none, none⟩],
            [⟨"org-1", "Acme", "acme", none, none, none, none, 5, "u1",
              OrganizationStatus.TRIAL, 0, none, false, true⟩],
            [], [], [], []⟩
          (OrgStep.invite 10 "inv-1" "tok-1" (some "u1")
            ⟨"bob@acme.com", OrganizationRole.OWNER, none, none⟩))
        (OrgStep.accept 20 (some "u2") "tok-1")) "org-1" = 2 := by
  decide

/-- Helper: a countP does not grow under a map whose image satisfies the
predicate only where the original did. -/
theorem countP_map_le {α : Type} (f : α → α) (p : α → Bool) (l : List α)
    (h : ∀ a, p (f a) = true → p a = true) :
    (l.map f).countP p ≤ l.countP p := by
  rw [List.countP_map]
  exact List.countP_mono_left (fun x _ hpx => h x hpx)

/-- Helper: inviteMember never touches the user rows. -/
theorem inviteMember_users_eq (now : Nat) (iid tok : String) (db : DB)
    (uid : Option String) (body : InviteBody) :
    (inviteMember now iid tok db uid body).db.users = db.users := by
  unfold inviteMember
  repeat' split
  all_goals rfl

/-- Helper: inviteMember either leaves the invitations alone or appends one
invitation carrying the role of its payload. -/
theorem inviteMember_invitations_eq (now : Nat) (iid tok : String) (db : DB)
    (uid : Option String) (body : InviteBody) :
    (inviteMember now iid tok db uid body).db.invitations = db.invitations ∨
    ∃ inv, (inviteMember now iid tok db uid body).db.invitations =
        db.invitations ++ [inv] ∧ inv.role = body.role := by
  unfold inviteMember
  repeat' split
  all_goals first
    | exact Or.inl rfl
    | exact Or.inr ⟨_, rfl, rfl⟩

/-- Helper: an invite whose payload avoids the OWNER role preserves both the
one-owner invariant and the absence of OWNER invitations. -/
theorem inviteMember_preserves (now : Nat) (iid tok : String) (db : DB)
    (uid : Option String) (body : InviteBody)
    (hro : body.role ≠ OrganizationRole.OWNER)
    (hown : AtMostOneOwner db) (hninv : NoOwnerInvitations db) :
    AtMostOneOwner (inviteMember now iid tok db uid body).db ∧
    NoOwnerInvitations (inviteMember now iid tok db uid body).db := by
  constructor
  · intro oid
    unfold ownerCount
    rw [inviteMember_users_eq]
    exact hown oid
  · rcases inviteMember_invitations_eq now iid tok db uid body with h | ⟨inv, heq, hrole⟩
    · intro i hi
      rw [h] at hi
      exact hninv i hi
    · intro i hi
      rw [heq] at hi
      rcases List.mem_append.mp hi with hi1 | hi2
      · exact hninv i hi1
      · have hii : i = inv := by simpa using hi2
        rw [hii, hrole]
        exact hro

/-- Helper: acceptInvitation preserves the one-owner invariant and the
absence of OWNER invitations, because the joining user receives the role
stored on the invitation, which is never OWNER. -/
theorem acceptInvitation_preserves (now : Nat) (db : DB) (uid : Option String)
    (tok : String)
    (hown : AtMostOneOwner db) (hninv : NoOwnerInvitations db) :
    AtMostOneOwner (acceptInvitation now db uid tok).db ∧
    NoOwnerInvitations (acceptInvitation now db uid tok).db := by
  unfold acceptInvitation
  cases uid with
  | none => exact ⟨hown, hninv⟩
  | some userId =>
    cases hfind : db.invitations.find? (fun i => decide (i.token = tok)) with
    | none => simp only [hfind]; exact ⟨hown, hninv⟩
    | some inv =>
      simp only [hfind]
      have hinvmem : inv ∈ db.invitations := List.mem_of_find?_eq_some hfind
      have hrole : inv.role ≠ OrganizationRole.OWNER := hninv inv hinvmem
      by_cases hst : inv.status = InvitationStatus.PENDING
      · rw [if_neg (not_not_intro hst)]
        by_cases hexp : inv.expiresAt < now
        · rw [if_pos hexp]
          refine ⟨hown, ?_⟩
          intro i hi
          obtain ⟨j, hj, rfl⟩ := List.mem_map.mp hi
          by_cases hid : j.id = inv.id <;> simpa [hid] using hninv j hj
        · rw [if_neg hexp]
          cases huser : db.userById userId with
          | none => simp only [huser]; exact ⟨hown, hninv⟩
          | some user =>
            simp only [huser]
            by_cases hem : user.email = inv.email
            · rw [if_neg (not_not_intro hem)]
              by_cases horg : user.organizationId.isSome
              · rw [if_pos horg]
                exact ⟨hown, hninv⟩
              · rw [if_neg horg]
                constructor
                · intro oid
                  refine le_trans ?_ (hown oid)
                  refine countP_map_le _ _ _ ?_
                  intro a hpa
                  by_cases hid : a.id = userId
                  · exfalso
                    have hz := of_decide_eq_true hpa
                    rw [if_pos hid] at hz
                    exact hrole (Option.some_injective _ hz.2)
                  · rw [if_neg hid] at hpa
                    exact hpa
                · intro i hi
                  obtain ⟨j, hj, rfl⟩ := List.mem_map.mp hi
                  by_cases hid : j.id = inv.id <;> simpa [hid] using hninv j hj
            · rw [if_pos hem]
              exact ⟨hown, hninv⟩
      · rw [if_pos hst]
        exact ⟨hown, hninv⟩

/-- Helper: one membership step whose payload avoids the OWNER role
preserves both invariants. -/
theorem orgStep_preserves (s : OrgStep) (db : DB) (hs : StepNoOwnerRole s)
    (hown : AtMostOneOwner db) (hninv : NoOwnerInvitations db) :
    AtMostOneOwner (applyStep db s) ∧ NoOwnerInvitations (applyStep db s) := by
  cases s with
  | invite now iid tok uid body =>
    exact inviteMember_preserves now iid tok db uid body hs hown hninv
  | accept now uid tok =>
    exact acceptInvitation_preserves now db uid tok hown hninv

/-- C2 amended: a second OWNER is reachable through an invite whose payload
carries the OWNER role (see the counterexample); restricted to sequences of
inviteMember and acceptInvitation operations in which every invite payload
carries ADMIN or MEMBER, starting from a store with at most one OWNER per
organization and no stored OWNER invitation, both invariants are preserved
and no second OWNER ever appears. -/
theorem orgSteps_preserve_single_owner (steps : List OrgStep) (db : DB)
    (hsteps : ∀ s ∈ steps, StepNoOwnerRole s)
    (hown : AtMostOneOwner db) (hninv : NoOwnerInvitations db) :
    AtMostOneOwner (steps.foldl applyStep db) ∧
    NoOwnerInvitations (steps.foldl applyStep db) := by
  induction steps generalizing db with
  | nil => exact ⟨hown, hninv⟩
  | cons s t ih =>
    have h1 := orgStep_preserves s db (hsteps s (List.mem_cons_self s t)) hown hninv
    exact ih _ (fun x hx => hsteps x (List.mem_cons_of_mem s hx)) h1.1 h1.2

/-- Witness for the amended C2 at a concrete store and step list. -/
theorem orgSteps_preserve_single_owner_witness :
    ownerCount
      (List.foldl applyStep
        ⟨[⟨"u1", "Alice", "alice@acme.com", true, none, some "org-1",
            some OrganizationRole.OWNER, some 0⟩],
          [⟨"org-1", "Acme", "acme", none, none, none, none, 5, "u1",
            OrganizationStatus.TRIAL, 0, none, false, true⟩],
          [], [], [], []⟩
        [OrgStep.invite 10 "inv-1" "tok-1" (some "u1")
          ⟨"bob@acme.com", OrganizationRole.MEMBER, none, none⟩])
      "org-1" ≤ 1 :=
  (orgSteps_preserve_single_owner
    [OrgStep.invite 10 "inv-1" "tok-1" (some "u1")
      ⟨"bob@acme.com", OrganizationRole.MEMBER, none, none⟩]
    ⟨[⟨"u1", "Alice", "alice@acme.com", true, none, some "org-1",
        some OrganizationRole.OWNER, some 0⟩],
      [⟨"org-1", "Acme", "acme", none, none, none, none, 5, "u1",
        OrganizationStatus.TRIAL, 0, none, false, true⟩],
      [], [], [], []⟩
    (by
      intro s hs
      rw [List.mem_singleton.mp hs]
      show OrganizationRole.MEMBER ≠ OrganizationRole.OWNER
      decide)
    (by
      intro oid
      unfold ownerCount
      simp only [List.countP_cons, List.countP_nil]
      by_cases h1 : (some "org-1" : Option String) = some oid <;>
        simp [h1])
    (by intro i hi; exact absurd hi (List.not_mem_nil i))).1 "org-1"

/-- Counterexample to C9: the organization/create endpoint has no try/catch,
so a throwing store call propagates out of the handler instead of becoming a
failure response. -/
theorem createOrganization_uncaught_throw :
    createOrganizationEndpointE throwingDb (some "u1")
      ⟨"Acme", "acme", none, none, 5⟩ = Except.error "db failure" := rfl

/-- C9 amended: the verification API route, the signup server action and the
verifyOrganizationSignup endpoint each wrap their body in a catch that turns
any thrown error into the generic failure response; the organization plugin
endpoints carry no such wrapper (see the counterexample). -/
theorem wrapped_handlers_catch_all (fdb : FallibleDb) (body : VerifyRequestBody)
    (values : OrganizationSignupValues) (e1 e2 e3 : String) :
    (verifyPOSTInnerE fdb body = Except.error e1 →
      verifyPOSTRoute fdb body =
        ⟨500, some "Failed to verify email", false, some "Please try again later", none⟩) ∧
    (signupInnerE fdb values = Except.error e2 →
      signupRoute fdb values = signupCatch e2) ∧
    (orgVerifyInnerE fdb body = Except.error e3 →
      orgVerifyRoute fdb body = ⟨500, some "Failed to verify email"⟩) := by
  refine ⟨?_, ?_, ?_⟩ <;> intro h <;>
    simp [verifyPOSTRoute, signupRoute, orgVerifyRoute, h]

/-- Witness for the amended C9 at the throwing store. -/
theorem wrapped_handlers_catch_all_witness :
    verifyPOSTRoute throwingDb ⟨"bob@x.com", "123456"⟩ =
      ⟨500, some "Failed to verify email", false, some "Please try again later", none⟩ :=
  (wrapped_handlers_catch_all throwingDb ⟨"bob@x.com", "123456"⟩
    ⟨"Acme Corp", "acme-corp", none, "Alice Admin", "admin@acme.com",
      none, none, none, 5, true⟩
    "db failure" "db failure" "db failure").1 rfl

end MarshalLMS
